import Mathlib

/-!
Verification development for the Lucky-Bet wagering platform.

The server code (TypeScript) is embedded shallowly: JavaScript numbers are
modelled as exact rationals extended with the IEEE special values NaN and
the two infinities (rounding of binary floating point is out of scope; every
comparison and branching fact proved here is insensitive to rounding),
asynchronous database access is modelled as explicit state passing over a
map from user id to user record, and thrown errors become an explicit error
sum type, one constructor per distinct error message.
-/

/-- Decidable equality for the result-or-error type, so that settlements
can be evaluated at concrete inputs. -/
instance {ε α : Type} [DecidableEq ε] [DecidableEq α] : DecidableEq (Except ε α) :=
  fun a b =>
    match a, b with
    | .error e, .error f =>
      match decEq e f with
      | .isTrue h => .isTrue (congrArg Except.error h)
      | .isFalse h => .isFalse (fun hh => h (Except.error.inj hh))
    | .ok x, .ok y =>
      match decEq x y with
      | .isTrue h => .isTrue (congrArg Except.ok h)
      | .isFalse h => .isFalse (fun hh => h (Except.ok.inj hh))
    | .error _, .ok _ => .isFalse (fun hh => Except.noConfusion hh)
    | .ok _, .error _ => .isFalse (fun hh => Except.noConfusion hh)

/-- A JavaScript number: NaN, the two infinities, or a finite value
(modelled as an exact rational). -/
inductive JSNum where
  | nan : JSNum
  | inf : JSNum
  | ninf : JSNum
  | num : ℚ → JSNum
deriving DecidableEq, Repr

namespace JSNum

/-- The JavaScript isNaN test on a number. -/
def isNaN : JSNum → Bool
  | .nan => true
  | _ => false

/-- JavaScript strict less-than on numbers: false whenever either side is NaN. -/
def lt : JSNum → JSNum → Bool
  | .nan, _ => false
  | _, .nan => false
  | .inf, _ => false
  | _, .inf => true
  | .ninf, .ninf => false
  | .ninf, .num _ => true
  | .num _, .ninf => false
  | .num a, .num b => decide (a < b)

/-- JavaScript less-than-or-equal on numbers: false whenever either side is NaN. -/
def le : JSNum → JSNum → Bool
  | .nan, _ => false
  | _, .nan => false
  | .inf, .inf => true
  | .inf, _ => false
  | _, .inf => true
  | .ninf, _ => true
  | .num _, .ninf => false
  | .num a, .num b => decide (a ≤ b)

/-- JavaScript greater-than: a > b holds exactly when b < a (NaN compares false). -/
def gt (a b : JSNum) : Bool := lt b a

/-- JavaScript negation of a number. -/
def neg : JSNum → JSNum
  | .nan => .nan
  | .inf => .ninf
  | .ninf => .inf
  | .num a => .num (-a)

/-- JavaScript addition: NaN propagates, opposite infinities give NaN. -/
def add : JSNum → JSNum → JSNum
  | .nan, _ => .nan
  | _, .nan => .nan
  | .inf, .ninf => .nan
  | .ninf, .inf => .nan
  | .inf, _ => .inf
  | _, .inf => .inf
  | .ninf, _ => .ninf
  | _, .ninf => .ninf
  | .num a, .num b => .num (a + b)

/-- JavaScript subtraction, via addition of the negation. -/
def sub (a b : JSNum) : JSNum := add a (neg b)

/-- JavaScript multiplication: NaN propagates, infinity times zero is NaN,
otherwise infinities follow the sign rule. -/
def mul : JSNum → JSNum → JSNum
  | .nan, _ => .nan
  | _, .nan => .nan
  | .inf, .inf => .inf
  | .inf, .ninf => .ninf
  | .ninf, .inf => .ninf
  | .ninf, .ninf => .inf
  | .inf, .num q => if q = 0 then .nan else if 0 < q then .inf else .ninf
  | .num q, .inf => if q = 0 then .nan else if 0 < q then .inf else .ninf
  | .ninf, .num q => if q = 0 then .nan else if 0 < q then .ninf else .inf
  | .num q, .ninf => if q = 0 then .nan else if 0 < q then .ninf else .inf
  | .num a, .num b => .num (a * b)

end JSNum

/-- A JavaScript runtime value in a position typed as number: either an
actual number or some value of another runtime type (string, undefined, ...),
which only matters for code that tests typeof. -/
inductive JSVal where
  | jnum : JSNum → JSVal
  | jother : JSVal
deriving DecidableEq, Repr

/-- A row of the users table: username, email, password credential, balance. -/
structure User where
  username : String
  email : String
  password : String
  balance : JSNum
deriving DecidableEq, Repr

/-- The users table, as a map from numeric user id to the stored row. -/
def Db : Type := ℕ → Option User

namespace UserModel

/-- UserModel.updateBalance: UPDATE users SET balance WHERE id; an id with no
row updates nothing. -/
def updateBalance (db : Db) (id : ℕ) (newBalance : JSNum) : Db :=
  fun i => if i = id then (db i).map (fun u => { u with balance := newBalance }) else db i

/-- UserModel.updatePassword: UPDATE users SET password WHERE id. -/
def updatePassword (db : Db) (id : ℕ) (newPassword : String) : Db :=
  fun i => if i = id then (db i).map (fun u => { u with password := newPassword }) else db i

end UserModel

/-- The errors thrown by GameService, one constructor per message. -/
inductive GameErr where
  | invalidBet : GameErr
  | userNotFound : GameErr
  | insufficientFunds : GameErr
  | invalidSpin : GameErr
deriving DecidableEq, Repr

/-- The object returned by GameService.playCoinFlip. -/
structure FlipResult where
  outcome : String
  win : Bool
  payout : JSNum
  newBalance : JSNum
deriving DecidableEq, Repr

/-- The object returned by GameService.playRoulette. -/
structure RouletteResult where
  result : ℕ
  color : String
  win : Bool
  payout : JSNum
  newBalance : JSNum
deriving DecidableEq, Repr

namespace GameService

/-- GameService.playCoinFlip. The random draw is made explicit as the
parameter coin: true stands for a draw of heads, false for tails. The
returned pair is the settlement outcome (or thrown error) together with the
database after the call. -/
def playCoinFlip (db : Db) (userId : ℕ) (guess : String) (amount : JSVal)
    (coin : Bool) : Except GameErr FlipResult × Db :=
  if guess = "" then (.error .invalidBet, db)
  else
    match amount with
    | .jother => (.error .invalidBet, db)
    | .jnum a =>
      if a.le (.num 0) then (.error .invalidBet, db)
      else
        match db userId with
        | none => (.error .userNotFound, db)
        | some user =>
          if a.gt user.balance then (.error .insufficientFunds, db)
          else
            let outcome := if coin then "heads" else "tails"
            let win := guess = outcome
            let payout := if win then a.mul (.num (39 / 20)) else .num 0
            let newBalance := (user.balance.sub a).add payout
            (.ok ⟨outcome, win, payout, newBalance⟩,
              UserModel.updateBalance db userId newBalance)

/-- The fixed wheel-order table of pocket numbers with their colors, copied
from ROULETTE_NUMBERS in GameService.playRoulette. -/
def ROULETTE_NUMBERS : List (ℕ × String) :=
  [(0, "green"), (32, "red"), (15, "black"), (19, "red"), (4, "black"),
   (21, "red"), (2, "black"), (25, "red"), (17, "black"), (34, "red"),
   (6, "black"), (27, "red"), (13, "black"), (36, "red"), (11, "black"),
   (30, "red"), (8, "black"), (23, "red"), (10, "black"), (5, "red"),
   (24, "black"), (16, "red"), (33, "black"), (1, "red"), (20, "black"),
   (14, "red"), (31, "black"), (9, "red"), (22, "black"), (18, "red"),
   (29, "black"), (7, "red"), (28, "black"), (12, "red"), (35, "black"),
   (3, "red"), (26, "black")]

/-- getResultDetails: linear search of the wheel table for a pocket number. -/
def getResultDetails (n : ℕ) : Option (ℕ × String) :=
  ROULETTE_NUMBERS.find? (fun x => x.1 == n)

/-- The bet-matching if-else chain of playRoulette, returning the win flag
and the payout multiplier (a JavaScript number, hence a rational here). -/
def rouletteBetEval (betType : String) (resultNumber : ℕ) (color : String) :
    Bool × ℚ :=
  if betType = toString resultNumber then (true, 35)
  else if betType = color then (true, 1)
  else if betType = "even" ∧ resultNumber ≠ 0 ∧ resultNumber % 2 = 0 then (true, 1)
  else if betType = "odd" ∧ resultNumber % 2 = 1 then (true, 1)
  else if betType = "1-12" ∧ 1 ≤ resultNumber ∧ resultNumber ≤ 12 then (true, 2)
  else if betType = "13-24" ∧ 13 ≤ resultNumber ∧ resultNumber ≤ 24 then (true, 2)
  else if betType = "25-36" ∧ 25 ≤ resultNumber ∧ resultNumber ≤ 36 then (true, 2)
  else (false, 0)

/-- GameService.playRoulette. The random draw getRandomResult is made
explicit as the parameter resultNumber; the amount keeps its TypeScript
number type. The returned pair is the settlement outcome (or thrown error)
together with the database after the call. -/
def playRoulette (db : Db) (userId : ℕ) (betType : String) (amount : JSNum)
    (resultNumber : ℕ) : Except GameErr RouletteResult × Db :=
  match db userId with
  | none => (.error .userNotFound, db)
  | some user =>
    if amount.gt user.balance then (.error .insufficientFunds, db)
    else
      match getResultDetails resultNumber with
      | none => (.error .invalidSpin, db)
      | some result =>
        let wm := rouletteBetEval betType resultNumber result.2
        let win := wm.1
        let payout := if win then amount.mul (.num wm.2) else .num 0
        let newBalance := if win then user.balance.add payout
                          else user.balance.sub amount
        (.ok ⟨result.1, result.2, win, payout, newBalance⟩,
          UserModel.updateBalance db userId newBalance)

end GameService

/-- The errors thrown by AuthService, one constructor per message. -/
inductive AuthErr where
  | invalidBalance : AuthErr
  | userNotFound : AuthErr
  | invalidCredentials : AuthErr
  | weakPassword : AuthErr
deriving DecidableEq, Repr

namespace AuthService

/-- AuthService.updateBalance: rejects a value that is not of number type,
is NaN, or is below zero; otherwise persists it through the user model. -/
def updateBalance (db : Db) (userId : ℕ) (newBalance : JSVal) :
    Except AuthErr Unit × Db :=
  match newBalance with
  | .jother => (.error .invalidBalance, db)
  | .jnum n =>
    if n.isNaN then (.error .invalidBalance, db)
    else if n.lt (.num 0) then (.error .invalidBalance, db)
    else (.ok (), UserModel.updateBalance db userId n)

/-- AuthService.updatePassword: looks the user up, verifies the current
password, enforces the minimum length of six, then persists. -/
def updatePassword (db : Db) (userId : ℕ) (currentPassword newPassword : String) :
    Except AuthErr Unit × Db :=
  match db userId with
  | none => (.error .userNotFound, db)
  | some user =>
    if user.password ≠ currentPassword then (.error .invalidCredentials, db)
    else if newPassword.length < 6 then (.error .weakPassword, db)
    else (.ok (), UserModel.updatePassword db userId newPassword)

end AuthService

/-- The user reference a handler reads from the session under the key user:
absent when the session has no user entry. -/
structure SessionUser where
  id : ℕ
deriving DecidableEq, Repr

/-- What a handler sends back, reduced to the parts the claims are about:
the HTTP status code of the single terminal send, and the database after
the handler ran. -/
structure HandlerOut where
  status : ℕ
  db : Db

namespace Controller

/-- The truthiness test the handlers compile user question-mark id to:
true when the session has no user or the stored id is the falsy 0. -/
def noAuthId : Option SessionUser → Bool
  | none => true
  | some u => u.id == 0

/-- Controller.playCoinFlip: 401 without an authenticated id, otherwise
lower-cases the guess, delegates to the game service, and maps a thrown
error to 400 and success to 200. -/
def playCoinFlip (db : Db) (sess : Option SessionUser) (guess : String)
    (amount : JSVal) (coin : Bool) : HandlerOut :=
  match sess with
  | none => ⟨401, db⟩
  | some u =>
    if u.id == 0 then ⟨401, db⟩
    else
      match GameService.playCoinFlip db u.id guess.toLower amount coin with
      | (.error _, db2) => ⟨400, db2⟩
      | (.ok _, db2) => ⟨200, db2⟩

/-- Controller.playRoulette: 401 without an authenticated id, otherwise
delegates to the game service, mapping a thrown error to 400 and success
to 200. -/
def playRoulette (db : Db) (sess : Option SessionUser) (betType : String)
    (amount : JSNum) (resultNumber : ℕ) : HandlerOut :=
  match sess with
  | none => ⟨401, db⟩
  | some u =>
    if u.id == 0 then ⟨401, db⟩
    else
      match GameService.playRoulette db u.id betType amount resultNumber with
      | (.error _, db2) => ⟨400, db2⟩
      | (.ok _, db2) => ⟨200, db2⟩

/-- Controller.playBlackjack: a stub that answers 200 with a fixed payload
whatever the session holds, and touches nothing. -/
def playBlackjack (db : Db) (sess : Option SessionUser) : HandlerOut :=
  match sess with
  | _ => ⟨200, db⟩

/-- Controller.profile: 401 without an authenticated id, 404 when the user
row is gone, otherwise 200; never writes. -/
def profile (db : Db) (sess : Option SessionUser) : HandlerOut :=
  match sess with
  | none => ⟨401, db⟩
  | some u =>
    if u.id == 0 then ⟨401, db⟩
    else
      match db u.id with
      | none => ⟨404, db⟩
      | some _ => ⟨200, db⟩

/-- Controller.setBalance, behind POST /user/balance: 401 without an
authenticated id, 400 when the body balance is not a number or is below
zero, otherwise persists it with a direct UPDATE and answers 200. -/
def setBalance (db : Db) (sess : Option SessionUser) (balance : JSVal) :
    HandlerOut :=
  match sess with
  | none => ⟨401, db⟩
  | some u =>
    if u.id == 0 then ⟨401, db⟩
    else
      match balance with
      | .jother => ⟨400, db⟩
      | .jnum b =>
        if b.lt (.num 0) then ⟨400, db⟩
        else ⟨200, UserModel.updateBalance db u.id b⟩

/-- Controller.updateBalance, behind POST /api/users/updateBalance: 401
only when the session holds no user at all, otherwise delegates to
AuthService.updateBalance, mapping a thrown error to 400 and success to
200. -/
def updateBalance (db : Db) (sess : Option SessionUser) (newBalance : JSVal) :
    HandlerOut :=
  match sess with
  | none => ⟨401, db⟩
  | some u =>
    match AuthService.updateBalance db u.id newBalance with
    | (.error _, db2) => ⟨400, db2⟩
    | (.ok _, db2) => ⟨200, db2⟩

/-- The route table built by Controller.registerRoutes, as pairs of HTTP
method and exact path. -/
def registeredRoutes : List (String × String) :=
  [("POST", "/register"), ("POST", "/login"), ("GET", "/games"),
   ("GET", "/profile"), ("POST", "/play/roulette"),
   ("POST", "/play/blackjack"), ("POST", "/play/coinflip"),
   ("POST", "/user/balance"), ("POST", "/api/users/updateBalance"),
   ("GET", "/leaderboard"), ("PUT", "/user/profile"),
   ("PUT", "/user/password"), ("POST", "/auth/logout")]

end Controller

/-- The rank of a card as delivered by the external deck source; numeral
cards carry their face value. -/
inductive CardV where
  | ace : CardV
  | king : CardV
  | queen : CardV
  | jack : CardV
  | numCard : ℕ → CardV
deriving DecidableEq, Repr

namespace Blackjack

/-- The forEach accumulation inside getHandValue: running total and the
count of aces seen, each ace first entered at 11. -/
def tallyHand (cards : List CardV) : ℕ × ℕ :=
  cards.foldl
    (fun acc c =>
      match c with
      | .king => (acc.1 + 10, acc.2)
      | .queen => (acc.1 + 10, acc.2)
      | .jack => (acc.1 + 10, acc.2)
      | .ace => (acc.1 + 11, acc.2 + 1)
      | .numCard n => (acc.1 + n, acc.2))
    (0, 0)

/-- The while loop of getHandValue: demote an ace from 11 to 1, ten points
at a time, while the total still exceeds 21 and aces remain. -/
def adjustAces : ℕ → ℕ → ℕ
  | total, 0 => total
  | total, a + 1 => if 21 < total then adjustAces (total - 10) a else total

/-- getHandValue from the blackjack page: tally the hand, then demote aces
while busting. -/
def getHandValue (cards : List CardV) : ℕ :=
  adjustAces (tallyHand cards).1 (tallyHand cards).2

/-- The path the blackjack page posts every balance settlement to, from the
fetch call in updateUserBalance. -/
def clientUpdateBalancePath : String := "/api/users/updateBalance"

/-- The rank value named by the specification: face cards count ten,
numeral cards their face value, an ace first counts eleven. -/
def rankValue : CardV → ℕ
  | .ace => 11
  | .king => 10
  | .queen => 10
  | .jack => 10
  | .numCard n => n

end Blackjack

/-- Transcribed from the words of the specification, for comparison with
the route table of the source: the HTTP surface table of section 6. -/
def specHttpSurface : List (String × String) :=
  [("POST", "/register"), ("POST", "/login"), ("POST", "/auth/logout"),
   ("GET", "/profile"), ("GET", "/games"), ("POST", "/play/coinflip"),
   ("POST", "/play/roulette"), ("POST", "/play/blackjack"),
   ("POST", "/user/balance"), ("GET", "/leaderboard"),
   ("PUT", "/user/profile"), ("PUT", "/user/password")]

/-- Transcribed from the words of the claim, for comparison with the bet
matching of the source: the first matching rule of the precedence list
exact number, color, even, odd, dozen, with its multiplier; none when
every rule misses. -/
def specRouletteFirstMatch (betType : String) (n : ℕ) (color : String) :
    Option ℚ :=
  if betType = toString n then some 35
  else if betType = color then some 1
  else if betType = "even" ∧ n ≠ 0 ∧ n % 2 = 0 then some 1
  else if betType = "odd" ∧ n % 2 = 1 then some 1
  else if betType = "1-12" ∧ 1 ≤ n ∧ n ≤ 12 then some 2
  else if betType = "13-24" ∧ 13 ≤ n ∧ n ≤ 24 then some 2
  else if betType = "25-36" ∧ 25 ≤ n ∧ n ≤ 36 then some 2
  else none

/-- A one-row sample users table, user id 1 with a balance of one hundred,
used to evaluate the definitions at concrete inputs. -/
def db0 : Db :=
  fun i => if i = 1 then some ⟨"alice", "alice@example.com", "secret", .num 100⟩
           else none

theorem playCoinFlip_ok_inv {db : Db} {uid : ℕ} {guess : String} {amount : JSVal}
    {coin : Bool} {out : FlipResult} {db2 : Db}
    (h : GameService.playCoinFlip db uid guess amount coin = (.ok out, db2)) :
    guess ≠ "" ∧
    ∃ a u, amount = .jnum a ∧ db uid = some u ∧
      a.le (.num 0) = false ∧ a.gt u.balance = false ∧
      out = ⟨if coin then "heads" else "tails",
             decide (guess = (if coin then "heads" else "tails")),
             if guess = (if coin then "heads" else "tails") then a.mul (.num (39/20)) else .num 0,
             (u.balance.sub a).add
               (if guess = (if coin then "heads" else "tails") then a.mul (.num (39/20)) else .num 0)⟩ ∧
      db2 = UserModel.updateBalance db uid out.newBalance := by
  unfold GameService.playCoinFlip at h
  split at h
  · simp at h
  · rename_i hg
    cases amount with
    | jother => simp at h
    | jnum a =>
      simp only at h
      split at h
      · simp at h
      · rename_i hle
        cases hu : db uid with
        | none => rw [hu] at h; simp at h
        | some u =>
          rw [hu] at h
          simp only at h
          split at h
          · simp at h
          · rename_i hgt
            simp only [Prod.mk.injEq, Except.ok.injEq] at h
            obtain ⟨h1, h2⟩ := h
            subst h1
            exact ⟨hg, a, u, rfl, rfl, Bool.not_eq_true _ ▸ (by simpa using hle),
              by simpa using hgt, rfl, by rw [h2]⟩

theorem playRoulette_ok_inv {db : Db} {uid : ℕ} {betType : String} {amount : JSNum}
    {n : ℕ} {out : RouletteResult} {db2 : Db}
    (h : GameService.playRoulette db uid betType amount n = (.ok out, db2)) :
    ∃ u e, db uid = some u ∧ amount.gt u.balance = false ∧
      GameService.getResultDetails n = some e ∧
      out = ⟨e.1, e.2, (GameService.rouletteBetEval betType n e.2).1,
             (if (GameService.rouletteBetEval betType n e.2).1 = true
              then amount.mul (.num (GameService.rouletteBetEval betType n e.2).2)
              else .num 0),
             (if (GameService.rouletteBetEval betType n e.2).1 = true
              then u.balance.add
                (if (GameService.rouletteBetEval betType n e.2).1 = true
                 then amount.mul (.num (GameService.rouletteBetEval betType n e.2).2)
                 else .num 0)
              else u.balance.sub amount)⟩ ∧
      db2 = UserModel.updateBalance db uid out.newBalance := by
  unfold GameService.playRoulette at h
  cases hu : db uid with
  | none => rw [hu] at h; simp at h
  | some u =>
    rw [hu] at h
    simp only at h
    split at h
    · simp at h
    · rename_i hgt
      cases he : GameService.getResultDetails n with
      | none => rw [he] at h; simp at h
      | some e =>
        rw [he] at h
        simp only [Prod.mk.injEq, Except.ok.injEq] at h
        obtain ⟨h1, h2⟩ := h
        subst h1
        exact ⟨u, e, rfl, by simpa using hgt, rfl, rfl, by rw [h2]⟩

theorem playCoinFlip_error_db {db : Db} {uid : ℕ} {guess : String} {amount : JSVal}
    {coin : Bool} {e : GameErr}
    (h : (GameService.playCoinFlip db uid guess amount coin).1 = .error e) :
    (GameService.playCoinFlip db uid guess amount coin).2 = db := by
  unfold GameService.playCoinFlip at h ⊢
  split at h
  · rename_i hg; rw [if_pos hg]
  · rename_i hg
    rw [if_neg hg]
    cases amount with
    | jother => rfl
    | jnum a =>
      simp only at h ⊢
      split at h
      · rename_i hle; rw [if_pos hle]
      · rename_i hle
        rw [if_neg hle]
        cases hu : db uid with
        | none => rfl
        | some u =>
          rw [hu] at h
          simp only at h ⊢
          split at h
          · rename_i hgt; rw [if_pos hgt]
          · rename_i hgt; simp at h

theorem playRoulette_error_db {db : Db} {uid : ℕ} {betType : String} {amount : JSNum}
    {n : ℕ} {e : GameErr}
    (h : (GameService.playRoulette db uid betType amount n).1 = .error e) :
    (GameService.playRoulette db uid betType amount n).2 = db := by
  unfold GameService.playRoulette at h ⊢
  cases hu : db uid with
  | none => rfl
  | some u =>
    rw [hu] at h
    simp only at h ⊢
    split at h
    · rename_i hgt; rw [if_pos hgt]
    · rename_i hgt
      rw [if_neg hgt]
      cases he : GameService.getResultDetails n with
      | none => rfl
      | some r =>
        rw [he] at h
        simp at h

theorem playCoinFlip_invalidBet_iff {db : Db} {uid : ℕ} {guess : String}
    {amount : JSVal} {coin : Bool} :
    (GameService.playCoinFlip db uid guess amount coin).1 = .error .invalidBet ↔
      (guess = "" ∨ amount = .jother ∨
        ∃ a, amount = .jnum a ∧ a.le (.num 0) = true) := by
  unfold GameService.playCoinFlip
  by_cases hg : guess = ""
  · simp [hg]
  · rw [if_neg hg]
    cases amount with
    | jother => simp [hg]
    | jnum a =>
      simp only
      by_cases hle : a.le (.num 0) = true
      · simp [hg, hle]
      · rw [if_neg hle]
        cases hu : db uid with
        | none => simp [hg, hle]
        | some u =>
          by_cases hgt : a.gt u.balance = true
          · simp [hg, hle, hgt]
          · simp [hg, hle, hgt]

theorem playRoulette_no_invalidBet {db : Db} {uid : ℕ} {betType : String}
    {amount : JSNum} {n : ℕ} :
    (GameService.playRoulette db uid betType amount n).1 ≠ .error .invalidBet := by
  unfold GameService.playRoulette
  cases hu : db uid with
  | none => simp
  | some u =>
    simp only
    split
    · simp
    · cases he : GameService.getResultDetails n with
      | none => simp
      | some r => simp

theorem playCoinFlip_insufficient_iff {db : Db} {uid : ℕ} {guess : String}
    {amount : JSVal} {coin : Bool} :
    (GameService.playCoinFlip db uid guess amount coin).1 = .error .insufficientFunds ↔
      (guess ≠ "" ∧ ∃ a u, amount = .jnum a ∧ a.le (.num 0) = false ∧
        db uid = some u ∧ a.gt u.balance = true) := by
  unfold GameService.playCoinFlip
  by_cases hg : guess = ""
  · simp [hg]
  · rw [if_neg hg]
    cases amount with
    | jother => simp [hg]
    | jnum a =>
      simp only
      by_cases hle : a.le (.num 0) = true
      · simp [hg, hle]
      · rw [if_neg hle]
        cases hu : db uid with
        | none => simp [hg, hle]
        | some u =>
          by_cases hgt : a.gt u.balance = true
          · simp [hg, hle, hgt, Bool.not_eq_true]
          · simp [hg, hle, hgt, Bool.not_eq_true]

theorem playRoulette_insufficient_iff {db : Db} {uid : ℕ} {betType : String}
    {amount : JSNum} {n : ℕ} :
    (GameService.playRoulette db uid betType amount n).1 = .error .insufficientFunds ↔
      ∃ u, db uid = some u ∧ amount.gt u.balance = true := by
  unfold GameService.playRoulette
  cases hu : db uid with
  | none => simp
  | some u =>
    simp only
    by_cases hgt : amount.gt u.balance = true
    · simp [hgt]
    · rw [if_neg hgt]
      cases he : GameService.getResultDetails n with
      | none => simp [hgt]
      | some r => simp [hgt]

theorem JSNum.add_num_zero (x : JSNum) : x.add (.num 0) = x := by
  cases x <;> simp [JSNum.add]

theorem JSNum.le_num_false {a b : ℚ} (h : (JSNum.num a).le (.num b) = false) :
    ¬(a ≤ b) := by
  simpa [JSNum.le] using h

theorem JSNum.gt_num_false {a b : ℚ} (h : (JSNum.num a).gt (.num b) = false) :
    ¬(b < a) := by
  simpa [JSNum.gt, JSNum.lt] using h

theorem rouletteBetEval_snd_nonneg (bt : String) (n : ℕ) (c : String) :
    0 ≤ (GameService.rouletteBetEval bt n c).2 := by
  unfold GameService.rouletteBetEval
  split_ifs <;> norm_num

theorem updateBalance_point (db : Db) (uid : ℕ) (b : JSNum) (u : User)
    (hu : db uid = some u) :
    (UserModel.updateBalance db uid b uid).map User.balance = some b := by
  simp [UserModel.updateBalance, hu]

/-- C1 (counterexample): with a balance of one hundred, a winning red bet of
ten on pocket 32 settles to a persisted balance of 110, while the claimed
identity balanceBefore minus amount plus payout evaluates to 100. -/
theorem c1_roulette_win_identity_fails :
    (GameService.playRoulette db0 1 "red" (.num 10) 32).1 =
        .ok ⟨32, "red", true, .num 10, .num 110⟩ ∧
    ((GameService.playRoulette db0 1 "red" (.num 10) 32).2 1).map User.balance =
        some (.num 110) ∧
    ((JSNum.num 100).sub (.num 10)).add (.num 10) = .num 100 ∧
    decide (JSNum.num 110 = JSNum.num 100) = false :=
  ⟨by with_unfolding_all rfl, by with_unfolding_all rfl,
   by with_unfolding_all rfl, by with_unfolding_all rfl⟩

/-- C1 (amended): a successful coin flip settlement persists and returns
newBalance = balanceBefore - amount + payout; a successful roulette
settlement satisfies that identity on the loss branch (payout zero), but on
the win branch it persists newBalance = balanceBefore + payout, without
deducting the stake. -/
theorem c1_settlement_balance :
    (∀ (db : Db) (uid : ℕ) (guess : String) (amount : JSVal) (coin : Bool)
       (out : FlipResult) (db2 : Db),
      GameService.playCoinFlip db uid guess amount coin = (.ok out, db2) →
      ∀ u a, db uid = some u → amount = .jnum a →
        out.newBalance = (u.balance.sub a).add out.payout ∧
        (db2 uid).map User.balance = some out.newBalance) ∧
    (∀ (db : Db) (uid : ℕ) (betType : String) (amount : JSNum) (n : ℕ)
       (out : RouletteResult) (db2 : Db),
      GameService.playRoulette db uid betType amount n = (.ok out, db2) →
      ∀ u, db uid = some u →
        (out.win = true → out.newBalance = u.balance.add out.payout) ∧
        (out.win = false → out.payout = .num 0 ∧
          out.newBalance = (u.balance.sub amount).add out.payout) ∧
        (db2 uid).map User.balance = some out.newBalance) := by
  constructor
  · intro db uid guess amount coin out db2 h u a hu ha
    obtain ⟨hg, a2, u2, ha2, hu2, hle, hgt, hout, hdb2⟩ := playCoinFlip_ok_inv h
    rw [hu] at hu2
    rw [ha] at ha2
    cases ha2
    cases hu2
    subst hout
    exact ⟨rfl, hdb2 ▸ updateBalance_point db uid _ u hu⟩
  · intro db uid betType amount n out db2 h u hu
    obtain ⟨u2, e, hu2, hgt, he, hout, hdb2⟩ := playRoulette_ok_inv h
    rw [hu] at hu2
    cases hu2
    subst hout
    refine ⟨?_, ?_, hdb2 ▸ updateBalance_point db uid _ u hu⟩
    · intro hw
      dsimp only at hw ⊢
      rw [hw]
      simp
    · intro hw
      dsimp only at hw ⊢
      rw [hw]
      exact ⟨by simp, by simp [JSNum.add_num_zero]⟩
/-- C1 (witness): the amended theorem applied to a concrete five-unit heads
bet on a heads draw from a balance of one hundred. -/
theorem c1_settlement_balance_witness :
    db0 1 = some ⟨"alice", "alice@example.com", "secret", .num 100⟩ ∧
    (FlipResult.mk "heads" true (.num (39/4)) (.num (419/4))).newBalance =
      ((JSNum.num 100).sub (.num 5)).add
        (FlipResult.mk "heads" true (.num (39/4)) (.num (419/4))).payout :=
  ⟨by with_unfolding_all rfl,
   (c1_settlement_balance.1 db0 1 "heads" (.jnum (.num 5)) true
      ⟨"heads", true, .num (39/4), .num (419/4)⟩
      (UserModel.updateBalance db0 1 (.num (419/4)))
      (by with_unfolding_all rfl)
      ⟨"alice", "alice@example.com", "secret", .num 100⟩ (.num 5)
      (by with_unfolding_all rfl) rfl).1⟩

/-- C2 (counterexample): a roulette bet of zero, and a coin flip bet of NaN,
are both accepted and settled rather than rejected with an invalid-bet
error, refuting that every resolver rejects non-positive or non-finite
amounts. -/
theorem c2_resolvers_accept_bad_amounts :
    (GameService.playRoulette db0 1 "red" (.num 0) 32).1 =
        .ok ⟨32, "red", true, .num 0, .num 100⟩ ∧
    (GameService.playCoinFlip db0 1 "heads" (.jnum .nan) true).1 =
        .ok ⟨"heads", true, .nan, .nan⟩ :=
  ⟨by with_unfolding_all rfl, by with_unfolding_all rfl⟩

/-- C2 (amended): playCoinFlip throws the invalid-bet error exactly when the
guess is empty, the amount is not of number type, or the amount compares
less-or-equal to zero (NaN and the infinities pass that comparison);
playRoulette never throws an invalid-bet error; each resolver throws the
insufficient-funds error exactly when the user exists and the amount
compares greater than the stored balance, with playCoinFlip only reaching
that check past its input test. -/
theorem c2_bet_validation :
    (∀ (db : Db) (uid : ℕ) (guess : String) (amount : JSVal) (coin : Bool),
      (GameService.playCoinFlip db uid guess amount coin).1 = .error .invalidBet ↔
        (guess = "" ∨ amount = .jother ∨
          ∃ a, amount = .jnum a ∧ a.le (.num 0) = true)) ∧
    (∀ (db : Db) (uid : ℕ) (betType : String) (amount : JSNum) (n : ℕ),
      (GameService.playRoulette db uid betType amount n).1 ≠ .error .invalidBet) ∧
    (∀ (db : Db) (uid : ℕ) (guess : String) (amount : JSVal) (coin : Bool),
      (GameService.playCoinFlip db uid guess amount coin).1 = .error .insufficientFunds ↔
        (guess ≠ "" ∧ ∃ a u, amount = .jnum a ∧ a.le (.num 0) = false ∧
          db uid = some u ∧ a.gt u.balance = true)) ∧
    (∀ (db : Db) (uid : ℕ) (betType : String) (amount : JSNum) (n : ℕ),
      (GameService.playRoulette db uid betType amount n).1 = .error .insufficientFunds ↔
        ∃ u, db uid = some u ∧ amount.gt u.balance = true) :=
  ⟨fun _ _ _ _ _ => playCoinFlip_invalidBet_iff,
   fun _ _ _ _ _ => playRoulette_no_invalidBet,
   fun _ _ _ _ _ => playCoinFlip_insufficient_iff,
   fun _ _ _ _ _ => playRoulette_insufficient_iff⟩

/-- C2 (witness): the amended characterization applied to a concrete empty
guess and to a concrete oversized roulette bet. -/
theorem c2_bet_validation_witness :
    (GameService.playCoinFlip db0 1 "" (.jnum (.num 5)) true).1 =
        .error .invalidBet ∧
    (GameService.playRoulette db0 1 "red" (.num 200) 32).1 =
        .error .insufficientFunds :=
  ⟨(c2_bet_validation.1 db0 1 "" (.jnum (.num 5)) true).mpr (Or.inl rfl),
   (c2_bet_validation.2.2.2 db0 1 "red" (.num 200) 32).mpr
     ⟨⟨"alice", "alice@example.com", "secret", .num 100⟩,
      by with_unfolding_all rfl, by with_unfolding_all rfl⟩⟩

/-- C3 (counterexample): playRoulette accepts a negative bet of minus two
hundred; a winning red spin then persists a balance of minus one hundred,
strictly below zero, refuting non-negativity for every accepted amount. -/
theorem c3_negative_committed_balance :
    (GameService.playRoulette db0 1 "red" (.num (-200)) 32).1 =
        .ok ⟨32, "red", true, .num (-200), .num (-100)⟩ ∧
    ((GameService.playRoulette db0 1 "red" (.num (-200)) 32).2 1).map User.balance =
        some (.num (-100)) ∧
    (JSNum.num (-100)).lt (.num 0) = true :=
  ⟨by with_unfolding_all rfl, by with_unfolding_all rfl, by with_unfolding_all rfl⟩

/-- C3 (amended): starting from a non-negative finite balance, a committed
coin flip settlement with a finite amount leaves a non-negative balance, and
a committed roulette settlement leaves a non-negative balance provided the
accepted amount is also non-negative (the resolver accepts negative and NaN
amounts as well, for which the invariant fails). -/
theorem c3_nonnegative_balance :
    (∀ (db : Db) (uid : ℕ) (guess : String) (q : ℚ) (coin : Bool)
       (out : FlipResult) (db2 : Db),
      GameService.playCoinFlip db uid guess (.jnum (.num q)) coin = (.ok out, db2) →
      ∀ u b, db uid = some u → u.balance = .num b → 0 ≤ b →
        ∃ nb : ℚ, out.newBalance = .num nb ∧ 0 ≤ nb) ∧
    (∀ (db : Db) (uid : ℕ) (betType : String) (q : ℚ) (n : ℕ)
       (out : RouletteResult) (db2 : Db),
      GameService.playRoulette db uid betType (.num q) n = (.ok out, db2) →
      0 ≤ q →
      ∀ u b, db uid = some u → u.balance = .num b → 0 ≤ b →
        ∃ nb : ℚ, out.newBalance = .num nb ∧ 0 ≤ nb) := by
  constructor
  · intro db uid guess q coin out db2 h u b hu hb hb0
    obtain ⟨hg, a2, u2, ha2, hu2, hle, hgt, hout, hdb2⟩ := playCoinFlip_ok_inv h
    rw [hu] at hu2
    cases hu2
    cases ha2
    subst hout
    rw [hb] at hgt ⊢
    have hq : ¬(q ≤ 0) := JSNum.le_num_false hle
    have hqb : ¬(b < q) := JSNum.gt_num_false hgt
    dsimp only
    by_cases hw : guess = (if coin then "heads" else "tails")
    · rw [if_pos hw]
      refine ⟨b + -q + q * (39/20), rfl, ?_⟩
      nlinarith [le_of_not_le hq, le_of_not_lt hqb]
    · rw [if_neg hw]
      refine ⟨b + -q + 0, rfl, ?_⟩
      nlinarith [le_of_not_le hq, le_of_not_lt hqb]
  · intro db uid betType q n out db2 h hq0 u b hu hb hb0
    obtain ⟨u2, e, hu2, hgt, he, hout, hdb2⟩ := playRoulette_ok_inv h
    rw [hu] at hu2
    cases hu2
    subst hout
    rw [hb] at hgt ⊢
    have hqb : ¬(b < q) := JSNum.gt_num_false hgt
    have hm := rouletteBetEval_snd_nonneg betType n e.2
    dsimp only
    by_cases hw : (GameService.rouletteBetEval betType n e.2).1 = true
    · rw [if_pos hw, if_pos hw]
      refine ⟨b + q * (GameService.rouletteBetEval betType n e.2).2, ?_, ?_⟩
      · simp [JSNum.mul, JSNum.add]
      · nlinarith
    · rw [if_neg hw]
      refine ⟨b + -q, rfl, ?_⟩
      nlinarith [le_of_not_lt hqb]

/-- C3 (witness): both parts of the amended theorem applied to a concrete
five-unit bet from a balance of one hundred. -/
theorem c3_nonnegative_balance_witness :
    (∃ nb : ℚ,
      (FlipResult.mk "heads" true (.num (39/4)) (.num (419/4))).newBalance = .num nb ∧
      0 ≤ nb) ∧
    (∃ nb : ℚ,
      (RouletteResult.mk 32 "red" true (.num 5) (.num 105)).newBalance = .num nb ∧
      0 ≤ nb) :=
  ⟨c3_nonnegative_balance.1 db0 1 "heads" 5 true
      ⟨"heads", true, .num (39/4), .num (419/4)⟩
      (UserModel.updateBalance db0 1 (.num (419/4)))
      (by with_unfolding_all rfl)
      ⟨"alice", "alice@example.com", "secret", .num 100⟩ 100
      (by with_unfolding_all rfl) rfl (by norm_num),
   c3_nonnegative_balance.2 db0 1 "red" 5 32
      ⟨32, "red", true, .num 5, .num 105⟩
      (UserModel.updateBalance db0 1 (.num 105))
      (by with_unfolding_all rfl) (by norm_num)
      ⟨"alice", "alice@example.com", "secret", .num 100⟩ 100
      (by with_unfolding_all rfl) rfl (by norm_num)⟩

/-- C4 (counterexample): the blackjack route handler answers status 200 with
its stub payload even when the session carries no user, not 401. -/
theorem c4_blackjack_not_401 :
    (Controller.playBlackjack db0 none).status = 200 ∧
    decide ((Controller.playBlackjack db0 none).status = 401) = false :=
  ⟨rfl, by with_unfolding_all rfl⟩

/-- C4 (amended): a request with no session user gets status 401 and no
database change from the coin flip, roulette, profile, set-balance and
update-balance handlers; the blackjack handler instead is an
unauthenticated stub answering 200, also with no database change. -/
theorem c4_unauthenticated_handling :
    ∀ (db : Db) (guess betType : String) (amount body : JSVal) (amt : JSNum)
      (coin : Bool) (n : ℕ),
      Controller.playCoinFlip db none guess amount coin = ⟨401, db⟩ ∧
      Controller.playRoulette db none betType amt n = ⟨401, db⟩ ∧
      Controller.profile db none = ⟨401, db⟩ ∧
      Controller.setBalance db none body = ⟨401, db⟩ ∧
      Controller.updateBalance db none body = ⟨401, db⟩ ∧
      Controller.playBlackjack db none = ⟨200, db⟩ :=
  fun _ _ _ _ _ _ _ _ => ⟨rfl, rfl, rfl, rfl, rfl, rfl⟩

/-- C5: the bet-matching chain of playRoulette equals the first-matching-rule
table of the specification with its multipliers; on a successful settlement
the returned win flag and payout follow that chain, with payout equal to
amount times multiplier on a win and zero on a loss; a forced pocket 0
makes a 1-12 bet a loss, and a forced 17 pays a 17 bet 35 to 1. -/
theorem c5_roulette_bet_matching :
    (∀ (bt : String) (n : ℕ) (c : String),
      GameService.rouletteBetEval bt n c =
        match specRouletteFirstMatch bt n c with
        | some m => (true, m)
        | none => (false, 0)) ∧
    (∀ (db : Db) (uid : ℕ) (bt : String) (amount : JSNum) (n : ℕ)
       (out : RouletteResult) (db2 : Db),
      GameService.playRoulette db uid bt amount n = (.ok out, db2) →
      ∀ e, GameService.getResultDetails n = some e →
        out.win = (GameService.rouletteBetEval bt n e.2).1 ∧
        out.payout = (if out.win = true
          then amount.mul (.num (GameService.rouletteBetEval bt n e.2).2)
          else .num 0)) ∧
    ((GameService.playRoulette db0 1 "1-12" (.num 10) 0).1 =
        .ok ⟨0, "green", false, .num 0, .num 90⟩) ∧
    ((GameService.playRoulette db0 1 "17" (.num 10) 17).1 =
        .ok ⟨17, "black", true, .num 350, .num 450⟩) := by
  refine ⟨?_, ?_, by with_unfolding_all rfl, by with_unfolding_all rfl⟩
  · intro bt n c
    unfold GameService.rouletteBetEval specRouletteFirstMatch
    split_ifs <;> rfl
  · intro db uid bt amount n out db2 h e he
    obtain ⟨u2, e2, hu2, hgt, he2, hout, hdb2⟩ := playRoulette_ok_inv h
    rw [he] at he2
    cases he2
    subst hout
    exact ⟨rfl, rfl⟩

/-- C5 (witness): the settlement clause applied to a concrete red bet on
pocket 32. -/
theorem c5_roulette_bet_matching_witness :
    (RouletteResult.mk 32 "red" true (.num 10) (.num 110)).win =
        (GameService.rouletteBetEval "red" 32 (32, "red").2).1 ∧
    (RouletteResult.mk 32 "red" true (.num 10) (.num 110)).payout =
        (if (RouletteResult.mk 32 "red" true (.num 10) (.num 110)).win = true
         then (JSNum.num 10).mul (.num (GameService.rouletteBetEval "red" 32 (32, "red").2).2)
         else .num 0) :=
  c5_roulette_bet_matching.2.1 db0 1 "red" (.num 10) 32
    ⟨32, "red", true, .num 10, .num 110⟩
    (UserModel.updateBalance db0 1 (.num 110))
    (by with_unfolding_all rfl) (32, "red") (by with_unfolding_all rfl)

/-- C6: a committed coin flip settlement wins exactly when the guess equals
the drawn outcome; a win pays amount times 1.95 and a loss pays zero. -/
theorem c6_coinflip_win_iff :
    ∀ (db : Db) (uid : ℕ) (guess : String) (amount : JSVal) (coin : Bool)
      (out : FlipResult) (db2 : Db),
      GameService.playCoinFlip db uid guess amount coin = (.ok out, db2) →
      ∀ a, amount = .jnum a →
        (out.win = true ↔ guess = out.outcome) ∧
        (out.win = true → out.payout = a.mul (.num (39/20))) ∧
        (out.win = false → out.payout = .num 0) := by
  intro db uid guess amount coin out db2 h a ha
  obtain ⟨hg, a2, u2, ha2, hu2, hle, hgt, hout, hdb2⟩ := playCoinFlip_ok_inv h
  rw [ha] at ha2
  cases ha2
  subst hout
  refine ⟨?_, ?_, ?_⟩
  · dsimp only
    exact decide_eq_true_iff
  · intro hw
    dsimp only at hw ⊢
    rw [if_pos (of_decide_eq_true hw)]
  · intro hw
    dsimp only at hw ⊢
    rw [if_neg (of_decide_eq_false hw)]

/-- C6 (witness): the theorem applied to a concrete matching heads guess. -/
theorem c6_coinflip_win_iff_witness :
    ((FlipResult.mk "heads" true (.num (39/4)) (.num (419/4))).win = true ↔
      "heads" = (FlipResult.mk "heads" true (.num (39/4)) (.num (419/4))).outcome) ∧
    ((FlipResult.mk "heads" true (.num (39/4)) (.num (419/4))).win = true →
      (FlipResult.mk "heads" true (.num (39/4)) (.num (419/4))).payout =
        (JSNum.num 5).mul (.num (39/20))) ∧
    ((FlipResult.mk "heads" true (.num (39/4)) (.num (419/4))).win = false →
      (FlipResult.mk "heads" true (.num (39/4)) (.num (419/4))).payout = .num 0) :=
  c6_coinflip_win_iff db0 1 "heads" (.jnum (.num 5)) true
    ⟨"heads", true, .num (39/4), .num (419/4)⟩
    (UserModel.updateBalance db0 1 (.num (419/4)))
    (by with_unfolding_all rfl) (.num 5) rfl

/-- C7: whenever a resolver throws, the database it returns is the database
it was given, so a rejected bet performs no balance write. -/
theorem c7_rejection_writes_nothing :
    (∀ (db : Db) (uid : ℕ) (guess : String) (amount : JSVal) (coin : Bool)
       (e : GameErr),
      (GameService.playCoinFlip db uid guess amount coin).1 = .error e →
      (GameService.playCoinFlip db uid guess amount coin).2 = db) ∧
    (∀ (db : Db) (uid : ℕ) (betType : String) (amount : JSNum) (n : ℕ)
       (e : GameErr),
      (GameService.playRoulette db uid betType amount n).1 = .error e →
      (GameService.playRoulette db uid betType amount n).2 = db) :=
  ⟨fun _ _ _ _ _ _ => playCoinFlip_error_db,
   fun _ _ _ _ _ _ => playRoulette_error_db⟩

/-- C7 (witness): the theorem applied to a concrete rejected empty guess and
a concrete oversized roulette bet. -/
theorem c7_rejection_writes_nothing_witness :
    (GameService.playCoinFlip db0 1 "" (.jnum (.num 5)) true).2 = db0 ∧
    (GameService.playRoulette db0 1 "red" (.num 200) 32).2 = db0 :=
  ⟨c7_rejection_writes_nothing.1 db0 1 "" (.jnum (.num 5)) true .invalidBet
      (by with_unfolding_all rfl),
   c7_rejection_writes_nothing.2 db0 1 "red" (.num 200) 32 .insufficientFunds
      (by with_unfolding_all rfl)⟩

theorem tallyHand_spec (cards : List CardV) :
    Blackjack.tallyHand cards =
      ((cards.map Blackjack.rankValue).sum, cards.count .ace) := by
  have H : ∀ (cs : List CardV) (p : ℕ × ℕ),
      cs.foldl (fun acc cd => match cd with
        | CardV.king => (acc.1 + 10, acc.2)
        | CardV.queen => (acc.1 + 10, acc.2)
        | CardV.jack => (acc.1 + 10, acc.2)
        | CardV.ace => (acc.1 + 11, acc.2 + 1)
        | CardV.numCard n => (acc.1 + n, acc.2)) p =
        (p.1 + (cs.map Blackjack.rankValue).sum, p.2 + cs.count CardV.ace) := by
    intro cs
    induction cs with
    | nil => intro p; simp
    | cons x xs ih =>
      intro p
      cases x <;>
        simp [List.foldl_cons, ih, Blackjack.rankValue, List.count_cons] <;>
        omega
  simpa [Blackjack.tallyHand] using H cards (0, 0)

theorem adjustAces_no_demote (t a : ℕ) (h : t ≤ 21) :
    Blackjack.adjustAces t a = t := by
  cases a with
  | zero => rfl
  | succ b =>
    unfold Blackjack.adjustAces
    rw [if_neg (by omega)]

theorem adjustAces_bound (t a : ℕ) :
    Blackjack.adjustAces t a ≤ 21 ∨ Blackjack.adjustAces t a = t - 10 * a := by
  induction a generalizing t with
  | zero => right; simp [Blackjack.adjustAces]
  | succ b ih =>
    unfold Blackjack.adjustAces
    by_cases h : 21 < t
    · rw [if_pos h]
      rcases ih (t - 10) with h1 | h1
      · left; exact h1
      · right; rw [h1]; omega
    · rw [if_neg h]
      left
      omega

/-- C8: updatePassword fails user-not-found when the id has no row; next
invalid-credentials when the current password mismatches, regardless of the
new password length; next weak-password below six characters; otherwise it
persists the new credential. -/
theorem c8_updatePassword_order :
    ∀ (db : Db) (uid : ℕ) (currentPassword newPassword : String),
      (db uid = none →
        AuthService.updatePassword db uid currentPassword newPassword =
          (.error .userNotFound, db)) ∧
      (∀ u, db uid = some u → u.password ≠ currentPassword →
        AuthService.updatePassword db uid currentPassword newPassword =
          (.error .invalidCredentials, db)) ∧
      (∀ u, db uid = some u → u.password = currentPassword →
        newPassword.length < 6 →
        AuthService.updatePassword db uid currentPassword newPassword =
          (.error .weakPassword, db)) ∧
      (∀ u, db uid = some u → u.password = currentPassword →
        6 ≤ newPassword.length →
        AuthService.updatePassword db uid currentPassword newPassword =
          (.ok (), UserModel.updatePassword db uid newPassword)) := by
  intro db uid cur npw
  refine ⟨?_, ?_, ?_, ?_⟩
  · intro h
    unfold AuthService.updatePassword
    rw [h]
  · intro u hu hne
    unfold AuthService.updatePassword
    rw [hu]
    simp only
    rw [if_pos hne]
  · intro u hu he hlen
    unfold AuthService.updatePassword
    rw [hu]
    simp only
    rw [if_neg (not_not_intro he), if_pos hlen]
  · intro u hu he hlen
    unfold AuthService.updatePassword
    rw [hu]
    simp only
    rw [if_neg (not_not_intro he), if_neg (not_lt.mpr hlen)]

/-- C8 (witness): the success clause applied to the sample user with the
correct current password and a new password of eight characters. -/
theorem c8_updatePassword_order_witness :
    AuthService.updatePassword db0 1 "secret" "longpass" =
      (.ok (), UserModel.updatePassword db0 1 "longpass") ∧
    ((UserModel.updatePassword db0 1 "longpass") 1).map User.password =
      some "longpass" :=
  ⟨(c8_updatePassword_order db0 1 "secret" "longpass").2.2.2
      ⟨"alice", "alice@example.com", "secret", .num 100⟩
      (by with_unfolding_all rfl) rfl (by decide),
   by with_unfolding_all rfl⟩

/-- C9: getHandValue tallies face cards as ten, numerals at face value and
aces at eleven, then demotes aces ten points at a time while the total
exceeds 21 and aces remain: the tally equals the rank sum paired with the
ace count, a total already at most 21 is returned unchanged, and the result
is at most 21 unless every ace was demoted; the hands ace-king and
ace-ace-nine both evaluate to 21. -/
theorem c9_hand_value :
    (Blackjack.getHandValue [.ace, .king] = 21) ∧
    (Blackjack.getHandValue [.ace, .ace, .numCard 9] = 21) ∧
    (∀ cards, Blackjack.tallyHand cards =
      ((cards.map Blackjack.rankValue).sum, cards.count .ace)) ∧
    (∀ t a, t ≤ 21 → Blackjack.adjustAces t a = t) ∧
    (∀ t a, Blackjack.adjustAces t a ≤ 21 ∨
      Blackjack.adjustAces t a = t - 10 * a) :=
  ⟨by decide, by decide, tallyHand_spec, adjustAces_no_demote, adjustAces_bound⟩

/-- C9 (witness): the no-demotion clause applied to a total of twenty with
three aces. -/
theorem c9_hand_value_witness :
    (20 : ℕ) ≤ 21 ∧ Blackjack.adjustAces 20 3 = 20 :=
  ⟨by decide, c9_hand_value.2.2.2.1 20 3 (by decide)⟩

/-- C10: the route POST /api/users/updateBalance is registered but absent
from the HTTP surface of the specification; behind it, for an authenticated
session the call succeeds exactly when the body value is a non-NaN number
not below zero, in which case that value is persisted verbatim as the new
balance; a failed call writes nothing, and a request with no session user
gets 401; the blackjack page settles through this same path. -/
theorem c10_updateBalance_route :
    (("POST", Blackjack.clientUpdateBalancePath) ∈ Controller.registeredRoutes) ∧
    (("POST", Blackjack.clientUpdateBalancePath) ∉ specHttpSurface) ∧
    (∀ (db : Db) (uid : ℕ) (v : JSVal),
      (AuthService.updateBalance db uid v).1 = .ok () ↔
        ∃ n, v = .jnum n ∧ n.isNaN = false ∧ n.lt (.num 0) = false) ∧
    (∀ (db : Db) (uid : ℕ) (n : JSNum),
      n.isNaN = false → n.lt (.num 0) = false →
      AuthService.updateBalance db uid (.jnum n) =
        (.ok (), UserModel.updateBalance db uid n)) ∧
    (∀ (db : Db) (uid : ℕ) (v : JSVal) (e : AuthErr),
      (AuthService.updateBalance db uid v).1 = .error e →
      (AuthService.updateBalance db uid v).2 = db) ∧
    (∀ (db : Db) (v : JSVal),
      Controller.updateBalance db none v = ⟨401, db⟩) := by
  refine ⟨by decide, by decide, ?_, ?_, ?_, fun _ _ => rfl⟩
  · intro db uid v
    unfold AuthService.updateBalance
    cases v with
    | jother => simp
    | jnum n =>
      simp only
      by_cases h1 : n.isNaN = true
      · simp [h1]
      · rw [if_neg h1]
        by_cases h2 : n.lt (.num 0) = true
        · simp [h1, h2]
        · rw [if_neg h2]
          simp [Bool.not_eq_true] at h1 h2
          simp [h1, h2]
  · intro db uid n h1 h2
    unfold AuthService.updateBalance
    simp [h1, h2]
  · intro db uid v e h
    unfold AuthService.updateBalance at h ⊢
    cases v with
    | jother => rfl
    | jnum n =>
      simp only at h ⊢
      split at h
      · rename_i hh; rw [if_pos hh]
      · rename_i hh
        rw [if_neg hh]
        split at h
        · rename_i hh2; rw [if_pos hh2]
        · rename_i hh2; simp at h

/-- C10 (witness): the success clause applied to a concrete value of fifty,
which is persisted verbatim. -/
theorem c10_updateBalance_route_witness :
    AuthService.updateBalance db0 1 (.jnum (.num 50)) =
      (.ok (), UserModel.updateBalance db0 1 (.num 50)) ∧
    ((UserModel.updateBalance db0 1 (.num 50)) 1).map User.balance =
      some (.num 50) :=
  ⟨c10_updateBalance_route.2.2.2.1 db0 1 (.num 50)
      (by with_unfolding_all rfl) (by with_unfolding_all rfl),
   by with_unfolding_all rfl⟩
